import Mathlib

/-!
# Verification of the favicon-generation scripts

Shallow embedding of the two scripts of this repository,
`create_favicon.py` and `create_better_favicon.py`, together with the
parts of the Pillow (PIL) imaging library that they call, and proofs of
the specification claims about them.

Conventions of the embedding:

* A pixel colour is an RGBA quadruple of natural numbers (each channel
  0–255 in practice).
* An image (`Img`) is its dimensions together with a total pixel
  function; drawing mutates the image in place in Python, which is
  embedded as explicit state passing (each drawing step returns the
  updated image).
* Pillow drawing primitives are embedded as a trace of `DrawOp` values
  plus a pixel-level semantics `applyOp`.  Coordinates are integers, as
  in the scripts.  Pillow's `rectangle`, `pieslice`, `rounded_rectangle`
  and `polygon` are rasterised here by their ideal regions (inclusive
  bounding boxes, exact quarter discs, even–odd polygon interiors at
  pixel centres); Pillow's scan-conversion agrees with this on interior
  pixels and may differ on a few boundary pixels of curved or slanted
  edges.  Every theorem below samples only pixels where the two agree
  (strip interiors/borders and pixels outside every operation's
  bounding box) or is independent of exact pixel values.
* Pillow's `pieslice` parametrises arc points as
  `(cx + r·cos θ, cy + r·sin θ)` in (column, row) raster coordinates —
  numerically the standard mathematical parametrisation with 0° at the
  positive x-axis.  Only the four quarter ranges used by the scripts
  are given a semantics.
-/

/-- An RGBA colour: red, green, blue, alpha. -/
abbrev RGBA := Nat × Nat × Nat × Nat

/-- An in-memory raster image: fixed dimensions and a pixel function
(indexed column-first: `px x y` is the pixel of column `x`, row `y`;
row 0 is the top row, as in PIL). -/
structure Img where
  width : Nat
  height : Nat
  px : Nat → Nat → RGBA

/-- `PIL.Image.new(mode, (w, h), color)`: a `w × h` canvas filled
uniformly with `color`. -/
def Image.new (w h : Nat) (c : RGBA) : Img :=
  { width := w, height := h, px := fun _ _ => c }

/-- One Pillow drawing call, as issued by the scripts.  `rect` is
`ImageDraw.rectangle`, `pieslice` is `ImageDraw.pieslice`,
`roundedRect` is `ImageDraw.rounded_rectangle`, `polygon` is
`ImageDraw.polygon` (fill only, as the scripts use it). -/
inductive DrawOp where
  | rect (x0 y0 x1 y1 : Int) (fill : RGBA) (outline : Option RGBA) (w : Nat)
  | pieslice (x0 y0 x1 y1 : Int) (a0 a1 : Nat) (fill : RGBA) (outline : Option RGBA) (w : Nat)
  | roundedRect (x0 y0 x1 y1 r : Int) (fill : RGBA) (outline : Option RGBA) (w : Nat)
  | polygon (pts : List (Int × Int)) (fill : RGBA)
  deriving DecidableEq, Repr

/-- The sign pattern of the pixel offsets `(dx, dy)` from the slice
centre covered by a quarter angular range, per Pillow's arc
parametrisation `(cx + r·cos θ, cy + r·sin θ)` in (column, row)
coordinates: `some (sx, sy)` with `sx = true` meaning `0 ≤ dx`
(cos nonnegative on the range) and `sx = false` meaning `dx ≤ 0`,
similarly `sy` for `dy` via sin.  Only the four quarter ranges the
scripts use are covered. -/
def sliceQuadrant (a0 a1 : Nat) : Option (Bool × Bool) :=
  if a0 = 0 ∧ a1 = 90 then some (true, true)
  else if a0 = 90 ∧ a1 = 180 then some (false, true)
  else if a0 = 180 ∧ a1 = 270 then some (false, false)
  else if a0 = 270 ∧ a1 = 360 then some (true, false)
  else none

/-- Membership of pixel `(x, y)` in the pie slice of bounding box
`[x0, y0, x1, y1]` (inclusive, as in Pillow) over the quarter range
`[a0, a1]`: inside the inscribed ellipse and in the quadrant of the
angular range.  Computed in doubled coordinates so the centre
`((x0+x1)/2, (y0+y1)/2)` needs no division. -/
def pieMember (x0 y0 x1 y1 : Int) (a0 a1 : Nat) (x y : Int) : Bool :=
  match sliceQuadrant a0 a1 with
  | none => false
  | some (sx, sy) =>
    let dx := 2 * x - (x0 + x1)
    let dy := 2 * y - (y0 + y1)
    let a := x1 - x0   -- doubled horizontal radius
    let b := y1 - y0   -- doubled vertical radius
    decide (dx * dx * (b * b) + dy * dy * (a * a) ≤ a * a * (b * b)) &&
      (if sx then decide (0 ≤ dx) else decide (dx ≤ 0)) &&
      (if sy then decide (0 ≤ dy) else decide (dy ≤ 0))

/-- Membership of pixel `(x, y)` in the inclusive rectangle
`[x0, y0, x1, y1]` (Pillow includes both corners). -/
def rectMember (x0 y0 x1 y1 x y : Int) : Bool :=
  decide (x0 ≤ x) && decide (x ≤ x1) && decide (y0 ≤ y) && decide (y ≤ y1)

/-- Whether pixel `(x, y)` lies on the border ring of width `w` of the
inclusive rectangle `[x0, y0, x1, y1]` (where Pillow paints the
`outline` colour). -/
def rectBorder (x0 y0 x1 y1 : Int) (w : Nat) (x y : Int) : Bool :=
  rectMember x0 y0 x1 y1 x y &&
    (decide (x < x0 + (w : Int)) || decide (x1 - (w : Int) < x) ||
     decide (y < y0 + (w : Int)) || decide (y1 - (w : Int) < y))

/-- Membership in Pillow's `rounded_rectangle` region: inside the
rectangle, and inside the corner disc whenever the pixel falls in one
of the four `r × r` corner squares. -/
def roundedRectMember (x0 y0 x1 y1 r x y : Int) : Bool :=
  rectMember x0 y0 x1 y1 x y &&
    (!(decide (x < x0 + r) && decide (y < y0 + r)) ||
       decide ((x - (x0 + r)) ^ 2 + (y - (y0 + r)) ^ 2 ≤ r ^ 2)) &&
    (!(decide (x1 - r < x) && decide (y < y0 + r)) ||
       decide ((x - (x1 - r)) ^ 2 + (y - (y0 + r)) ^ 2 ≤ r ^ 2)) &&
    (!(decide (x < x0 + r) && decide (y1 - r < y)) ||
       decide ((x - (x0 + r)) ^ 2 + (y - (y1 - r)) ^ 2 ≤ r ^ 2)) &&
    (!(decide (x1 - r < x) && decide (y1 - r < y)) ||
       decide ((x - (x1 - r)) ^ 2 + (y - (y1 - r)) ^ 2 ≤ r ^ 2))

/-- The consecutive vertex pairs of a closed polygon: `[a, b, c]`
yields `[(a, b), (b, c), (c, a)]`. -/
def cyclePairs : List (Int × Int) → List ((Int × Int) × (Int × Int))
  | [] => []
  | p :: t => List.zip (p :: t) (t ++ [p])

/-- Even–odd polygon interior test at the centre of pixel `(x, y)`:
the pixel centre `(x + ½, y + ½)` is taken in doubled coordinates
`(2x+1, 2y+1)` (so a ray through it meets no doubled vertex), and edge
crossings of the rightward horizontal ray are counted. -/
def insidePoly (pts : List (Int × Int)) (x y : Int) : Bool :=
  let X := 2 * x + 1
  let Y := 2 * y + 1
  let cnt := (cyclePairs pts).foldl (fun (n : Nat) e =>
    let ax := 2 * e.1.1
    let ay := 2 * e.1.2
    let bx := 2 * e.2.1
    let b2 := 2 * e.2.2
    if (decide (ay < Y) != decide (b2 < Y)) &&
        (if ay < b2 then decide ((X - ax) * (b2 - ay) < (Y - ay) * (bx - ax))
         else decide ((X - ax) * (b2 - ay) > (Y - ay) * (bx - ax))) then
      n + 1
    else n) 0
  decide (cnt % 2 = 1)

/-- Whether a drawing operation covers pixel `(x, y)`. -/
def DrawOp.member : DrawOp → Int → Int → Bool
  | .rect x0 y0 x1 y1 _ _ _, x, y => rectMember x0 y0 x1 y1 x y
  | .pieslice x0 y0 x1 y1 a0 a1 _ _ _, x, y => pieMember x0 y0 x1 y1 a0 a1 x y
  | .roundedRect x0 y0 x1 y1 r _ _ _, x, y => roundedRectMember x0 y0 x1 y1 r x y
  | .polygon pts _, x, y => insidePoly pts x y

/-- The colour an operation paints at a covered pixel: the `outline`
colour on a rectangle's border ring of the given width, the `fill`
colour elsewhere.  (For `pieslice` and `rounded_rectangle` the
one-pixel arc outline is painted `fill` here; no theorem below samples
an arc-boundary pixel.) -/
def DrawOp.colorAt : DrawOp → Int → Int → RGBA
  | .rect x0 y0 x1 y1 fill outline w, x, y =>
    match outline with
    | some oc => if rectBorder x0 y0 x1 y1 w x y then oc else fill
    | none => fill
  | .pieslice _ _ _ _ _ _ fill _ _, _, _ => fill
  | .roundedRect x0 y0 x1 y1 _ fill outline w, x, y =>
    match outline with
    | some oc => if rectBorder x0 y0 x1 y1 w x y then oc else fill
    | none => fill
  | .polygon _ fill, _, _ => fill

/-- Apply one drawing operation to an image: covered in-bounds pixels
take the operation's colour, all others are unchanged (Pillow clips
drawing to the canvas). -/
def applyOp (img : Img) (op : DrawOp) : Img :=
  { img with
    px := fun x y =>
      if x < img.width ∧ y < img.height ∧ op.member (x : Int) (y : Int) then
        op.colorAt (x : Int) (y : Int)
      else img.px x y }

/-- Apply a list of drawing operations in order (later operations
paint over earlier ones). -/
def renderOps (ops : List DrawOp) (img : Img) : Img :=
  ops.foldl applyOp img

/-- `draw_rounded_rectangle` of `create_favicon.py`, as the trace of
Pillow calls it issues, in order: the horizontal strip, the vertical
strip, then the four corner pie slices (top-left 180–270, top-right
270–360, bottom-left 90–180, bottom-right 0–90). -/
def draw_rounded_rectangle (x0 y0 x1 y1 corner_radius : Int)
    (fill : RGBA) (outline : Option RGBA) (w : Nat) : List DrawOp :=
  [ .rect (x0 + corner_radius) y0 (x1 - corner_radius) y1 fill outline w,
    .rect x0 (y0 + corner_radius) x1 (y1 - corner_radius) fill outline w,
    .pieslice x0 y0 (x0 + corner_radius * 2) (y0 + corner_radius * 2) 180 270 fill outline w,
    .pieslice (x1 - corner_radius * 2) y0 x1 (y0 + corner_radius * 2) 270 360 fill outline w,
    .pieslice x0 (y1 - corner_radius * 2) (x0 + corner_radius * 2) y1 90 180 fill outline w,
    .pieslice (x1 - corner_radius * 2) (y1 - corner_radius * 2) x1 y1 0 90 fill outline w ]

/-- A font, as the scripts use one: the `textbbox((0,0), "K", font)`
bounding box of the letter "K", and the glyph mask `draw.text` stamps,
as offsets from the draw position. -/
structure Font where
  bboxK : Int × Int × Int × Int
  mask : Int → Int → Bool

/-- Modelled from the spec: the glyph mask of the letter "K" in PIL's
built-in default bitmap font (`ImageFont.load_default()`; the font
resource itself is not part of src/).  Per the spec the fallback
renderer "still produces a non-empty glyph region": the mask is a
schematic 6×11 "K" — a two-column vertical stem and two one-pixel
diagonal strokes — which is non-empty. -/
def defaultFontMask (dx dy : Int) : Bool :=
  decide (0 ≤ dy) && decide (dy < 11) &&
    ((decide (0 ≤ dx) && decide (dx < 2)) ||
     (decide (dy ≤ 5) && decide (dx = 7 - dy) && decide (dx < 6)) ||
     (decide (6 ≤ dy) && decide (dx = dy - 4) && decide (dx < 6)))

/-- Modelled from the spec: PIL's built-in default bitmap font, with
the "K" bounding box `(0, 0, 6, 11)` and the schematic non-empty glyph
mask `defaultFontMask`. -/
def defaultFont : Font :=
  { bboxK := (0, 0, 6, 11), mask := defaultFontMask }

/-- `draw.text(pos, text, fill, font)`: stamp the font's glyph mask at
`pos`, painting covered in-bounds pixels with `fill`. -/
def drawText (img : Img) (pos : Int × Int) (f : Font) (fill : RGBA) : Img :=
  { img with
    px := fun x y =>
      if x < img.width ∧ y < img.height ∧
          f.mask ((x : Int) - pos.1) ((y : Int) - pos.2) then fill
      else img.px x y }

/-- `PIL.Image.resize((w, h), LANCZOS)`.  Pillow short-circuits the
identity case — when the requested size equals the image's size (and
the box covers the whole image) it returns `self.copy()`, a fresh
image with the source's pixels, never invoking the resampling filter.
Otherwise it returns a new raster of exactly the requested dimensions
whose pixels are produced by the filter; the Lanczos kernel is
transcendental (sinc-based floating point), so its pixel values are
modelled here by point sampling — no theorem below depends on the
pixel values of a non-identity resize, only on output dimensions and
on the identity case. -/
def Img.resize (img : Img) (w h : Nat) : Img :=
  if w = img.width ∧ h = img.height then
    { width := img.width, height := img.height, px := img.px }
  else
    { width := w, height := h,
      px := fun x y => img.px (x * img.width / w) (y * img.height / h) }

/-- Insert a size into a sorted duplicate-free list of sizes, keeping
it sorted (lexicographically) and duplicate-free. -/
def insertSize (p : Nat × Nat) : List (Nat × Nat) → List (Nat × Nat)
  | [] => [p]
  | q :: t =>
    if p = q then q :: t
    else if p.1 < q.1 ∨ (p.1 = q.1 ∧ p.2 < q.2) then p :: q :: t
    else q :: insertSize p t

/-- Python's `sorted(set(l))` on a list of `(width, height)` sizes. -/
def sortedSet (l : List (Nat × Nat)) : List (Nat × Nat) :=
  l.foldr insertSize []

/-- Pillow's ICO writer (`IcoImagePlugin._save`), as the script calls
it — with a `sizes` keyword and no `append_images`: the requested
sizes are deduplicated and sorted; any size whose width or height
exceeds the base image's (or 256) is silently dropped; each remaining
frame is produced from the base image (the base itself when the size
matches, a resize of it otherwise). -/
def saveIco (base : Img) (sizes : List (Nat × Nat)) : List Img :=
  ((sortedSet sizes).filter fun s =>
      decide (s.1 ≤ base.width) && decide (s.2 ≤ base.height) &&
        decide (s.1 ≤ 256) && decide (s.2 ≤ 256)).map
    fun s => if s.1 = base.width ∧ s.2 = base.height then base else base.resize s.1 s.2

namespace CreateFavicon

/-- `size = 32` of `create_favicon.py`. -/
def size : Int := 32

/-- `margin = 2`. -/
def margin : Int := 2

/-- `corner_radius = 6`. -/
def corner_radius : Int := 6

/-- `'white'`. -/
def white : RGBA := (255, 255, 255, 255)

/-- `'#e5e7eb'`. -/
def outlineGray : RGBA := (229, 231, 235, 255)

/-- `'black'`. -/
def black : RGBA := (0, 0, 0, 255)

/-- `(255, 255, 255, 0)`: the transparent-white canvas background. -/
def background : RGBA := (255, 255, 255, 0)

/-- `Image.new('RGBA', (32, 32), (255, 255, 255, 0))`. -/
def img0 : Img := Image.new 32 32 background

/-- The trace of the call
`draw_rounded_rectangle(draw, [margin, margin, size-margin, size-margin],
corner_radius, fill='white', outline='#e5e7eb', width=1)`. -/
def backgroundOps : List DrawOp :=
  draw_rounded_rectangle margin margin (size - margin) (size - margin)
    corner_radius white (some outlineGray) 1

/-- The canvas after the rounded-rectangle background is composited,
before the glyph is drawn. -/
def imgRounded : Img := renderOps backgroundOps img0

/-- The `try: font = ImageFont.truetype(...) except: font =
ImageFont.load_default()` block, over the outcome of the font-resource
load: the loaded font on success, the default font on any failure. -/
def chooseFont : Except String Font → Font
  | .ok f => f
  | .error _ => defaultFont

/-- The glyph draw position: `x = (size - text_width) // 2` and
`y = (size - text_height) // 2 - 2` (Python `//` is floor division,
`Int.fdiv`). -/
def glyphPos (tw th : Int) : Int × Int :=
  (Int.fdiv (size - tw) 2, Int.fdiv (size - th) 2 - 2)

/-- The whole drawing pipeline of `create_favicon.py` as a function of
the font-load outcome: composite the rounded-rectangle background,
measure the chosen font's "K" bounding box, and stamp the glyph at the
centred position. -/
def finalCanvas (r : Except String Font) : Img :=
  let font := chooseFont r
  let bbox := font.bboxK
  let tw := bbox.2.2.1 - bbox.1
  let th := bbox.2.2.2 - bbox.2.1
  drawText imgRounded (glyphPos tw th) font black

end CreateFavicon

namespace CreateBetterFavicon

/-- `(255, 255, 255, 255)`: the opaque-white canvas background and
rectangle fill. -/
def white : RGBA := (255, 255, 255, 255)

/-- `(0, 0, 0, 255)`: the glyph colour. -/
def black : RGBA := (0, 0, 0, 255)

/-- `(229, 231, 235, 255)`: the rounded rectangle's outline colour. -/
def outlineGray : RGBA := (229, 231, 235, 255)

/-- The trace of drawing calls of `create_favicon()`: the rounded
background panel, the "K" stem rectangle, and the two diagonal-stroke
polygons, in program order. -/
def drawOps : List DrawOp :=
  [ .roundedRect 1 1 30 30 6 white (some outlineGray) 1,
    .rect 8 6 10 25 black none 1,
    .polygon [(10, 6), (18, 6), (18, 8), (12, 14), (10, 14)] black,
    .polygon [(10, 17), (12, 17), (18, 25), (18, 27), (14, 27), (10, 20)] black ]

/-- The canvas at the end of the drawing stage of `create_favicon()`,
as a function of one (unit) run input — the script's construction takes
no other input — so that run-to-run determinism can be stated. -/
def buildCanvas : Unit → Img := fun _ => renderOps drawOps (Image.new 32 32 white)

/-- The in-memory 32×32 canvas `img` at the end of the drawing stage. -/
def img : Img := buildCanvas ()

/-- `sizes = [16, 32, 48, 96, 144, 256]`. -/
def sizes : List Nat := [16, 32, 48, 96, 144, 256]

/-- `ico_sizes = [(16, 16), (32, 32), (48, 48)]`. -/
def ico_sizes : List (Nat × Nat) := [(16, 16), (32, 32), (48, 48)]

/-- `ico_images`: the three resizes of the canvas built by the
`for size in ico_sizes` loop. -/
def ico_images : List Img := ico_sizes.map fun s => img.resize s.1 s.2

/-- The frames embedded in `static/images/favicon.ico` by
`ico_images[0].save(..., format='ICO', sizes=ico_sizes)`: the ICO
writer runs with the 16×16 resize as its base image. -/
def favicon_ico : List Img := saveIco (ico_images.getD 0 img) ico_sizes

/-- What the export stage writes, together with the canvas as it
stands when the stage ends. -/
structure ExportResult where
  pngs : List (Nat × Img)
  canonical : Img
  ico : List Img
  canvasAfter : Img

/-- The export stage of `create_favicon()` (lines 29–46), state-passing
embedding of the script's single image variable `img`: the six sized
PNG files, the canonical `favicon.png`, the ICO frames, and the canvas
after the stage.  Each loop iteration binds its resize to the fresh
`resized`/`ico_img` variable (Pillow's `resize` returns a new image —
`self.copy()` even at the identity size) and `save` only reads its
image, so the canvas leaves the stage as it entered it. -/
def exportStage (c : Img) : ExportResult :=
  { pngs := sizes.map fun s => (s, c.resize s s)
    canonical := c
    ico := saveIco ((ico_sizes.map fun s => c.resize s.1 s.2).getD 0 c) ico_sizes
    canvasAfter := c }

end CreateBetterFavicon

/-- Scaling the inscribed-ellipse inequality of a `2r × 2r` bounding
box (in doubled pixel coordinates `2u`, `2v`) down to the radius-`r`
disc inequality. -/
lemma scaled_disc_iff (r u v : Int) (hr : 0 < r) :
    2 * u * (2 * u) * (2 * r * (2 * r)) + 2 * v * (2 * v) * (2 * r * (2 * r)) ≤
      2 * r * (2 * r) * (2 * r * (2 * r)) ↔ u ^ 2 + v ^ 2 ≤ r ^ 2 := by
  constructor <;> intro h <;>
    nlinarith [mul_pos hr hr, sq_nonneg u, sq_nonneg v]

/-- On a square bounding box `[x0, y0, x0 + 2r, y0 + 2r]`, `pieMember`
for a quarter angular range is exactly the quarter of the radius-`r`
disc centred at `(x0 + r, y0 + r)` selected by the range's sign
pattern. -/
lemma pieMember_quarter_iff (x0 y0 r : Int) (sx sy : Bool) (a0 a1 : Nat)
    (hq : sliceQuadrant a0 a1 = some (sx, sy)) (hr : 0 < r) (x y : Int) :
    pieMember x0 y0 (x0 + r * 2) (y0 + r * 2) a0 a1 x y = true ↔
      ((x - (x0 + r)) ^ 2 + (y - (y0 + r)) ^ 2 ≤ r ^ 2 ∧
        (if sx then x0 + r ≤ x else x ≤ x0 + r) ∧
        (if sy then y0 + r ≤ y else y ≤ y0 + r)) := by
  unfold pieMember
  rw [hq]
  rcases sx <;> rcases sy <;>
    simp only [Bool.and_eq_true, decide_eq_true_eq, if_true, if_false,
      Bool.false_eq_true, Bool.true_eq_false, and_assoc] <;>
    (constructor
     · rintro ⟨h1, h2, h3⟩
       refine ⟨by nlinarith [mul_pos hr hr], by omega, by omega⟩
     · rintro ⟨h1, h2, h3⟩
       refine ⟨by nlinarith [mul_pos hr hr], by omega, by omega⟩)

/-- C2: in `draw_rounded_rectangle` the four corner pie slices carry
the angular ranges 180–270 (top-left), 270–360 (top-right), 90–180
(bottom-left) and 0–90 (bottom-right), and — under the standard
angular parametrisation with 0° at the positive x-axis, which is how
Pillow places arc points, `(cx + r·cos θ, cy + r·sin θ)` in
(column, row) coordinates — each slice covers exactly the quarter of
the radius-`r` disc lying toward its corner of the rectangle. -/
theorem C2_pieslices_cover_corner_quadrants (x0 y0 x1 y1 r : Int)
    (fill : RGBA) (outline : Option RGBA) (w : Nat) (hr : 0 < r) :
    (draw_rounded_rectangle x0 y0 x1 y1 r fill outline w).drop 2 =
      [ DrawOp.pieslice x0 y0 (x0 + r * 2) (y0 + r * 2) 180 270 fill outline w,
        DrawOp.pieslice (x1 - r * 2) y0 x1 (y0 + r * 2) 270 360 fill outline w,
        DrawOp.pieslice x0 (y1 - r * 2) (x0 + r * 2) y1 90 180 fill outline w,
        DrawOp.pieslice (x1 - r * 2) (y1 - r * 2) x1 y1 0 90 fill outline w ]
    ∧ (∀ x y : Int,
        pieMember x0 y0 (x0 + r * 2) (y0 + r * 2) 180 270 x y = true ↔
          (x - (x0 + r)) ^ 2 + (y - (y0 + r)) ^ 2 ≤ r ^ 2 ∧ x ≤ x0 + r ∧ y ≤ y0 + r)
    ∧ (∀ x y : Int,
        pieMember (x1 - r * 2) y0 x1 (y0 + r * 2) 270 360 x y = true ↔
          (x - (x1 - r)) ^ 2 + (y - (y0 + r)) ^ 2 ≤ r ^ 2 ∧ x1 - r ≤ x ∧ y ≤ y0 + r)
    ∧ (∀ x y : Int,
        pieMember x0 (y1 - r * 2) (x0 + r * 2) y1 90 180 x y = true ↔
          (x - (x0 + r)) ^ 2 + (y - (y1 - r)) ^ 2 ≤ r ^ 2 ∧ x ≤ x0 + r ∧ y1 - r ≤ y)
    ∧ (∀ x y : Int,
        pieMember (x1 - r * 2) (y1 - r * 2) x1 y1 0 90 x y = true ↔
          (x - (x1 - r)) ^ 2 + (y - (y1 - r)) ^ 2 ≤ r ^ 2 ∧ x1 - r ≤ x ∧ y1 - r ≤ y) := by
  refine ⟨rfl, ?_, ?_, ?_, ?_⟩
  · intro x y
    simpa using pieMember_quarter_iff x0 y0 r false false 180 270 rfl hr x y
  · intro x y
    have h := pieMember_quarter_iff (x1 - r * 2) y0 r true false 270 360 rfl hr x y
    rw [show x1 - r * 2 + r * 2 = x1 by ring, show x1 - r * 2 + r = x1 - r by ring] at h
    simpa using h
  · intro x y
    have h := pieMember_quarter_iff x0 (y1 - r * 2) r false true 90 180 rfl hr x y
    rw [show y1 - r * 2 + r * 2 = y1 by ring, show y1 - r * 2 + r = y1 - r by ring] at h
    simpa using h
  · intro x y
    have h := pieMember_quarter_iff (x1 - r * 2) (y1 - r * 2) r true true 0 90 rfl hr x y
    rw [show x1 - r * 2 + r * 2 = x1 by ring, show x1 - r * 2 + r = x1 - r by ring,
      show y1 - r * 2 + r * 2 = y1 by ring, show y1 - r * 2 + r = y1 - r by ring] at h
    simpa using h

/-- Witness for C2 at the concrete geometry of `create_favicon.py`:
bounding box `[2, 2, 30, 30]`, corner radius 6, white fill, `#e5e7eb`
outline, width 1. -/
theorem C2_pieslices_cover_corner_quadrants_witness :
    (0 : Int) < 6 ∧
    ((draw_rounded_rectangle 2 2 30 30 6 CreateFavicon.white
        (some CreateFavicon.outlineGray) 1).drop 2 =
      [ DrawOp.pieslice 2 2 (2 + 6 * 2) (2 + 6 * 2) 180 270 CreateFavicon.white
          (some CreateFavicon.outlineGray) 1,
        DrawOp.pieslice (30 - 6 * 2) 2 30 (2 + 6 * 2) 270 360 CreateFavicon.white
          (some CreateFavicon.outlineGray) 1,
        DrawOp.pieslice 2 (30 - 6 * 2) (2 + 6 * 2) 30 90 180 CreateFavicon.white
          (some CreateFavicon.outlineGray) 1,
        DrawOp.pieslice (30 - 6 * 2) (30 - 6 * 2) 30 30 0 90 CreateFavicon.white
          (some CreateFavicon.outlineGray) 1 ]
    ∧ (∀ x y : Int,
        pieMember 2 2 (2 + 6 * 2) (2 + 6 * 2) 180 270 x y = true ↔
          (x - (2 + 6)) ^ 2 + (y - (2 + 6)) ^ 2 ≤ 6 ^ 2 ∧ x ≤ 2 + 6 ∧ y ≤ 2 + 6)
    ∧ (∀ x y : Int,
        pieMember (30 - 6 * 2) 2 30 (2 + 6 * 2) 270 360 x y = true ↔
          (x - (30 - 6)) ^ 2 + (y - (2 + 6)) ^ 2 ≤ 6 ^ 2 ∧ 30 - 6 ≤ x ∧ y ≤ 2 + 6)
    ∧ (∀ x y : Int,
        pieMember 2 (30 - 6 * 2) (2 + 6 * 2) 30 90 180 x y = true ↔
          (x - (2 + 6)) ^ 2 + (y - (30 - 6)) ^ 2 ≤ 6 ^ 2 ∧ x ≤ 2 + 6 ∧ 30 - 6 ≤ y)
    ∧ (∀ x y : Int,
        pieMember (30 - 6 * 2) (30 - 6 * 2) 30 30 0 90 x y = true ↔
          (x - (30 - 6)) ^ 2 + (y - (30 - 6)) ^ 2 ≤ 6 ^ 2 ∧ 30 - 6 ≤ x ∧ 30 - 6 ≤ y)) :=
  ⟨by decide,
   C2_pieslices_cover_corner_quadrants 2 2 30 30 6 CreateFavicon.white
     (some CreateFavicon.outlineGray) 1 (by decide)⟩

/-- C3 counterexample: on the bounding box `[2, 2, 30, 30]` with
corner radius 6 — exactly the call `create_favicon.py` makes — the
first fill issued by `draw_rounded_rectangle` is the rectangle
`[2 + 6, 2, 30 - 6, 30]`, horizontally inset by one corner *radius*
per side, which differs from the strip inset by one corner *diameter*
(`2·6`) per side that the claim describes. -/
theorem C3_first_strip_not_diameter_inset :
    (draw_rounded_rectangle 2 2 30 30 6 CreateFavicon.white
        (some CreateFavicon.outlineGray) 1).head? =
      some (DrawOp.rect (2 + 6) 2 (30 - 6) 30 CreateFavicon.white
        (some CreateFavicon.outlineGray) 1) ∧
    DrawOp.rect (2 + 6) 2 (30 - 6) 30 CreateFavicon.white
        (some CreateFavicon.outlineGray) 1 ≠
      DrawOp.rect (2 + 2 * 6) 2 (30 - 2 * 6) 30 CreateFavicon.white
        (some CreateFavicon.outlineGray) 1 :=
  ⟨rfl, by decide⟩

/-- C3 (amended): for every bounding box `[x0, y0, x1, y1]` and corner
radius `r`, the first fill of `draw_rounded_rectangle` is the
horizontal strip spanning the full height of the box and inset
horizontally by the corner radius `r` (half the corner diameter) on
each side, the second fill is the vertical strip spanning the full
width and inset vertically by `r` on each side, and both strips come
before all four corner pie slices. -/
theorem C3_strips_inset_by_radius_before_discs (x0 y0 x1 y1 r : Int)
    (fill : RGBA) (outline : Option RGBA) (w : Nat) :
    (draw_rounded_rectangle x0 y0 x1 y1 r fill outline w =
      DrawOp.rect (x0 + r) y0 (x1 - r) y1 fill outline w ::
        DrawOp.rect x0 (y0 + r) x1 (y1 - r) fill outline w ::
        [ DrawOp.pieslice x0 y0 (x0 + r * 2) (y0 + r * 2) 180 270 fill outline w,
          DrawOp.pieslice (x1 - r * 2) y0 x1 (y0 + r * 2) 270 360 fill outline w,
          DrawOp.pieslice x0 (y1 - r * 2) (x0 + r * 2) y1 90 180 fill outline w,
          DrawOp.pieslice (x1 - r * 2) (y1 - r * 2) x1 y1 0 90 fill outline w ]) ∧
    (∀ x y : Int,
      rectMember (x0 + r) y0 (x1 - r) y1 x y = true ↔
        x0 + r ≤ x ∧ x ≤ x1 - r ∧ y0 ≤ y ∧ y ≤ y1) ∧
    (∀ x y : Int,
      rectMember x0 (y0 + r) x1 (y1 - r) x y = true ↔
        x0 ≤ x ∧ x ≤ x1 ∧ y0 + r ≤ y ∧ y ≤ y1 - r) := by
  refine ⟨rfl, ?_, ?_⟩ <;> intro x y <;>
    simp [rectMember, and_assoc]

/-- C8: after the rounded-rectangle compositing of `create_favicon.py`
(box `[2, 2, 30, 30]`, corner radius 6, on the transparent 32×32
canvas), the four canvas corner pixels still hold the transparent
background colour, while the pixels at the midpoints of the
rectangle's four edges are painted (with the outline colour, which
differs from the background). -/
theorem C8_corners_background_edge_midpoints_filled :
    (CreateFavicon.imgRounded.px 0 0 = CreateFavicon.background ∧
     CreateFavicon.imgRounded.px 31 0 = CreateFavicon.background ∧
     CreateFavicon.imgRounded.px 0 31 = CreateFavicon.background ∧
     CreateFavicon.imgRounded.px 31 31 = CreateFavicon.background) ∧
    (CreateFavicon.imgRounded.px 16 2 ≠ CreateFavicon.background ∧
     CreateFavicon.imgRounded.px 16 30 ≠ CreateFavicon.background ∧
     CreateFavicon.imgRounded.px 2 16 ≠ CreateFavicon.background ∧
     CreateFavicon.imgRounded.px 30 16 ≠ CreateFavicon.background) := by
  decide

/-- C6: when the font-resource load fails, `create_favicon.py` does
not raise: the `except` branch silently selects the built-in default
font, the drawing pipeline completes on the 32×32 canvas, and the
glyph region is non-empty — pixel (14, 15), by the canvas centre, is
painted the glyph colour, which differs from the background. -/
theorem C6_font_fallback_nonfatal_glyph_nonempty (e : String) :
    CreateFavicon.chooseFont (Except.error e) = defaultFont ∧
    (CreateFavicon.finalCanvas (Except.error e)).width = 32 ∧
    (CreateFavicon.finalCanvas (Except.error e)).height = 32 ∧
    (CreateFavicon.finalCanvas (Except.error e)).px 14 15 = CreateFavicon.black ∧
    CreateFavicon.black ≠ CreateFavicon.background :=
  ⟨rfl, rfl, rfl, rfl, by decide⟩

/-- Witness for C6 at a concrete failing font load. -/
theorem C6_font_fallback_witness :
    CreateFavicon.chooseFont (Except.error "font file missing") = defaultFont ∧
    (CreateFavicon.finalCanvas (Except.error "font file missing")).width = 32 ∧
    (CreateFavicon.finalCanvas (Except.error "font file missing")).height = 32 ∧
    (CreateFavicon.finalCanvas (Except.error "font file missing")).px 14 15 =
      CreateFavicon.black ∧
    CreateFavicon.black ≠ CreateFavicon.background :=
  C6_font_fallback_nonfatal_glyph_nonempty "font file missing"

/-- C7: the glyph draw position of `create_favicon.py` is
`x = (32 - text_width) // 2` and `y = (32 - text_height) // 2 - 2`.
Python `//` is floor division; whenever the measured text fits the
32×32 canvas (width and height at most 32, so both numerators are
nonnegative) it coincides with integer-truncated division `Int.tdiv`,
as the claim states. -/
theorem C7_glyph_centering_truncated_division (tw th : Int)
    (h1 : tw ≤ 32) (h2 : th ≤ 32) :
    CreateFavicon.glyphPos tw th =
      (Int.tdiv (32 - tw) 2, Int.tdiv (32 - th) 2 - 2) := by
  unfold CreateFavicon.glyphPos CreateFavicon.size
  rw [Int.fdiv_eq_tdiv (by omega : (0 : Int) ≤ 32 - tw) (by omega : (0 : Int) ≤ 2),
    Int.fdiv_eq_tdiv (by omega : (0 : Int) ≤ 32 - th) (by omega : (0 : Int) ≤ 2)]

/-- Witness for C7 at the default font's measured "K" box (6×11). -/
theorem C7_glyph_centering_witness :
    (6 : Int) ≤ 32 ∧ (11 : Int) ≤ 32 ∧
    CreateFavicon.glyphPos 6 11 = (Int.tdiv (32 - 6) 2, Int.tdiv (32 - 11) 2 - 2) :=
  ⟨by decide, by decide,
   C7_glyph_centering_truncated_division 6 11 (by decide) (by decide)⟩

/-- C1: the ICO export of `create_better_favicon.py` saves
`ico_images[0]` — the 16×16 resize — as the container's base image,
with `sizes=[(16,16),(32,32),(48,48)]` and no appended frames;
Pillow's ICO writer silently drops every requested size larger than
its base image, so the written `favicon.ico` embeds exactly one
resolution, 16×16, even though the preceding loop built all three
resized frames. -/
theorem C1_favicon_ico_embeds_single_resolution :
    CreateBetterFavicon.favicon_ico.map (fun i => (i.width, i.height)) = [(16, 16)] ∧
    CreateBetterFavicon.favicon_ico.length = 1 ∧
    CreateBetterFavicon.ico_images.map (fun i => (i.width, i.height)) =
      [(16, 16), (32, 32), (48, 48)] := by
  refine ⟨?_, ?_, ?_⟩ <;> rfl

/-- `resize` always yields exactly the requested dimensions (in the
identity case the source's own dimensions are the requested ones). -/
lemma resize_dims (img : Img) (w h : Nat) :
    (img.resize w h).width = w ∧ (img.resize w h).height = h := by
  unfold Img.resize
  split
  · next hc => exact ⟨hc.1.symm, hc.2.symm⟩
  · exact ⟨rfl, rfl⟩

/-- C4: for every size `S` of the export list `[16, 32, 48, 96, 144,
256]`, the PNG raster the exporter writes for `S` — the resize paired
with `S` in the export stage's PNG list — has exact pixel dimensions
`S×S`. -/
theorem C4_png_exports_have_requested_dims (s : Nat)
    (hs : s ∈ CreateBetterFavicon.sizes) :
    (CreateBetterFavicon.img.resize s s).width = s ∧
    (CreateBetterFavicon.img.resize s s).height = s ∧
    (s, CreateBetterFavicon.img.resize s s) ∈
      (CreateBetterFavicon.exportStage CreateBetterFavicon.img).pngs := by
  refine ⟨(resize_dims _ _ _).1, (resize_dims _ _ _).2, ?_⟩
  exact List.mem_map_of_mem _ hs

/-- Witness for C4 at the export size 16. -/
theorem C4_png_exports_witness :
    16 ∈ CreateBetterFavicon.sizes ∧
    ((CreateBetterFavicon.img.resize 16 16).width = 16 ∧
     (CreateBetterFavicon.img.resize 16 16).height = 16 ∧
     (16, CreateBetterFavicon.img.resize 16 16) ∈
       (CreateBetterFavicon.exportStage CreateBetterFavicon.img).pngs) :=
  ⟨by decide, C4_png_exports_have_requested_dims 16 (by decide)⟩

/-- C5: resampling is exactly idempotent at identity scale: Pillow
short-circuits a resize to the image's own size to `self.copy()`
without invoking the resampling filter, so resizing the 32×32 canvas
to 32×32 yields a 32×32 raster whose every pixel equals the
corresponding pixel of the source canvas. -/
theorem C5_identity_resize_pixel_identical (x y : Nat) :
    (CreateBetterFavicon.img.resize 32 32).width = 32 ∧
    (CreateBetterFavicon.img.resize 32 32).height = 32 ∧
    (CreateBetterFavicon.img.resize 32 32).px x y = CreateBetterFavicon.img.px x y :=
  ⟨rfl, rfl, rfl⟩

/-- Witness for C5 at a concrete pixel. -/
theorem C5_identity_resize_witness :
    (CreateBetterFavicon.img.resize 32 32).px 10 10 =
      CreateBetterFavicon.img.px 10 10 :=
  (C5_identity_resize_pixel_identical 10 10).2.2

/-- C9: the export stage never mutates the source canvas: every loop
iteration binds its `resize` result to a fresh variable (Pillow's
`resize` returns a new image, `self.copy()` even at the identity
size) and `save` only reads, so the canvas leaving the export stage
equals, pixel for pixel, the canvas that entered it at the end of the
drawing stage. -/
theorem C9_export_stage_preserves_canvas (x y : Nat) :
    (CreateBetterFavicon.exportStage CreateBetterFavicon.img).canvasAfter.px x y =
      CreateBetterFavicon.img.px x y ∧
    (CreateBetterFavicon.exportStage CreateBetterFavicon.img).canvasAfter =
      CreateBetterFavicon.img :=
  ⟨rfl, rfl⟩

/-- Witness for C9 at a concrete pixel. -/
theorem C9_export_witness :
    (CreateBetterFavicon.exportStage CreateBetterFavicon.img).canvasAfter.px 0 0 =
      CreateBetterFavicon.img.px 0 0 :=
  (C9_export_stage_preserves_canvas 0 0).1

/-- C10: the drawing pipelines are deterministic: two runs of
`create_favicon.py`'s canvas construction with the same font-load
outcome produce pixel-identical canvases, and two runs of
`create_better_favicon.py`'s canvas construction (which takes no
input at all) produce identical canvases. -/
theorem C10_drawing_deterministic (r1 r2 : Except String Font) (h : r1 = r2) :
    (∀ x y : Nat, (CreateFavicon.finalCanvas r1).px x y =
      (CreateFavicon.finalCanvas r2).px x y) ∧
    (∀ u v : Unit,
      CreateBetterFavicon.buildCanvas u = CreateBetterFavicon.buildCanvas v) := by
  subst h
  exact ⟨fun _ _ => rfl, fun _ _ => rfl⟩

/-- Witness for C10 at a concrete (failed) font-load outcome. -/
theorem C10_deterministic_witness :
    (Except.error "no font" : Except String Font) = Except.error "no font" ∧
    ((∀ x y : Nat,
        (CreateFavicon.finalCanvas (Except.error "no font")).px x y =
          (CreateFavicon.finalCanvas (Except.error "no font")).px x y) ∧
     (∀ u v : Unit,
        CreateBetterFavicon.buildCanvas u = CreateBetterFavicon.buildCanvas v)) :=
  ⟨rfl, C10_drawing_deterministic _ _ rfl⟩
